import Mathlib

/-!
Verification of the TinyFootball physics and gameplay core (`src/main.cpp`).

Shallow embedding conventions: C `float`/`double` state is modelled over `ℝ`,
C `int` values over `ℤ`.  `std::round` (round half away from zero) and the
truncating `int` casts of the source are modelled exactly on the values they
receive; `powf` with a real exponent is modelled by `Real.rpow`.  The SDL
keyboard snapshot is abstracted to per-intent booleans, and `rand()` to an
explicit natural-number argument, exactly where the source consumes them.
-/

set_option maxHeartbeats 1000000

namespace TinyFootball

/-- Screen width in pixels (`SCREEN_W`, main.cpp line 23). -/
def SCREEN_W : ℤ := 1300

/-- Screen height in pixels (`SCREEN_H`, main.cpp line 24). -/
def SCREEN_H : ℤ := 800

/-- `clampf` (main.cpp line 31): `(v<a)?a:((v>b)?b:v)`. -/
noncomputable def clampf (v a b : ℝ) : ℝ := if v < a then a else if v > b then b else v

/-- C `std::round`: rounds half away from zero. -/
noncomputable def cround (x : ℝ) : ℤ := if 0 ≤ x then ⌊x + 1/2⌋ else -⌊-x + 1/2⌋

/-- `SDL_Rect`: integer position and extent. -/
structure Rect where
  x : ℤ
  y : ℤ
  w : ℤ
  h : ℤ

/-- `rect_intersect` (main.cpp line 429):
`!(a.x+a.w <= b.x || b.x+b.w <= a.x || a.y+a.h <= b.y || b.y+b.h <= a.y)`. -/
def rect_intersect (a b : Rect) : Prop :=
  ¬(a.x + a.w ≤ b.x ∨ b.x + b.w ≤ a.x ∨ a.y + a.h ≤ b.y ∨ b.y + b.h ≤ a.y)

instance (a b : Rect) : Decidable (rect_intersect a b) := by
  unfold rect_intersect; infer_instance

/-- `Ball` (main.cpp lines 36-58): float position and velocity, int size,
float rotation angle and spin speed.  The texture pointer is presentation
state and is omitted. -/
structure Ball where
  x : ℝ
  y : ℝ
  vx : ℝ
  vy : ℝ
  size : ℤ
  angle : ℝ
  spinSpeed : ℝ

namespace Ball

/-- `Ball::FRICTION_PER_SEC` (main.cpp line 47). -/
def FRICTION_PER_SEC : ℝ := 0.98

/-- `Ball::MIN_STOP_SPEED` (main.cpp line 48). -/
def MIN_STOP_SPEED : ℝ := 10

/-- `Ball::SPIN_COEFF` (main.cpp line 49). -/
def SPIN_COEFF : ℝ := 5

/-- `Ball::SPIN_SMOOTH` (main.cpp line 50). -/
def SPIN_SMOOTH : ℝ := 0.85

end Ball

/-- `Ball::rect` (main.cpp line 60): `{ round(x), round(y), size, size }`. -/
noncomputable def Ball.rect (b : Ball) : Rect :=
  { x := cround b.x, y := cround b.y, w := b.size, h := b.size }

/-- `Ball::reset(bool towardsLeft)` (main.cpp lines 64-72).  `rv` models the
`rand()` sample; the source uses `(rand()%100)/100.0f - 0.5f`.  Note the
positions use C integer division (`SCREEN_W/2 - size/2`). -/
noncomputable def Ball.reset (b : Ball) (towardsLeft : Bool) (rv : ℕ) : Ball :=
  { b with
    x := ((SCREEN_W / 2 - b.size / 2 : ℤ) : ℝ),
    y := ((SCREEN_H / 2 - b.size / 2 : ℤ) : ℝ),
    vx := (if towardsLeft then (-1 : ℝ) else 1) * 280,
    vy := 80 * (((rv % 100 : ℕ) : ℝ) / 100 - 0.5),
    spinSpeed := 0,
    angle := 0 }

/-- The frame-rate-compensated friction factor `powf(FRICTION_PER_SEC, dt*60)`
of `Ball::update` (main.cpp line 80), modelled with real exponentiation. -/
noncomputable def frictionFactor (dt : ℝ) : ℝ := Ball.FRICTION_PER_SEC ^ (dt * 60)

/-- Closed form of the two angle-normalisation `while` loops of `Ball::update`
(main.cpp lines 104-105): the unique representative of `a` in `[0, 360)`. -/
noncomputable def wrapAngle (a : ℝ) : ℝ := a - 360 * ⌊a / 360⌋

/-- `Ball::update(float dt)` (main.cpp lines 74-106): integrate position,
apply exponential friction, snap small velocity components to zero, derive
and smooth the spin speed, and accumulate the wrapped rotation angle. -/
noncomputable def Ball.update (b : Ball) (dt : ℝ) : Ball :=
  let x := b.x + b.vx * dt
  let y := b.y + b.vy * dt
  let factor := frictionFactor dt
  let vx0 := b.vx * factor
  let vy0 := b.vy * factor
  let vx := if |vx0| < Ball.MIN_STOP_SPEED then 0 else vx0
  let vy := if |vy0| < Ball.MIN_STOP_SPEED then 0 else vy0
  let speed := Real.sqrt (vx * vx + vy * vy)
  let dir : ℝ := if 0 ≤ vx then 1 else -1
  let targetSpin := dir * speed * Ball.SPIN_COEFF
  let spin1 := b.spinSpeed * Ball.SPIN_SMOOTH + targetSpin * (1 - Ball.SPIN_SMOOTH)
  let spinSpeed := spin1 * factor
  let angle := wrapAngle (b.angle + spinSpeed * dt)
  { x := x, y := y, vx := vx, vy := vy, size := b.size, angle := angle, spinSpeed := spinSpeed }

/-- `Ball::kick(float fromX, float fromY, float force)` (main.cpp lines
109-128): add `force` along the unit vector from the kick origin to the ball
center, plus a sign-dependent spin boost; no-op when the distance is within
the `0.0001` epsilon guard. -/
noncomputable def Ball.kick (b : Ball) (fromX fromY force : ℝ) : Ball :=
  let ballCenterX := b.x + (b.size : ℝ) / 2
  let ballCenterY := b.y + (b.size : ℝ) / 2
  let dx := ballCenterX - fromX
  let dy := ballCenterY - fromY
  let dist := Real.sqrt (dx * dx + dy * dy)
  if 0.0001 < dist then
    let dxn := dx / dist
    let dyn := dy / dist
    let side : ℝ := if 0 ≤ dxn then 1 else -1
    { b with vx := b.vx + dxn * force, vy := b.vy + dyn * force,
             spinSpeed := b.spinSpeed + side * 250 }
  else b

/-- Translational speed of the ball, `sqrt(vx*vx + vy*vy)` as computed in
`Ball::update` and `reflect_ball_off_player`. -/
noncomputable def ballSpeed (b : Ball) : ℝ := Real.sqrt (b.vx * b.vx + b.vy * b.vy)

/-- `Team` (main.cpp line 27). -/
inductive Team where
  | Blue
  | Red

/-- `Player` (main.cpp lines 135-242): logic hitbox `r`, movement speed,
control flags, kick range, team, and the presentation-side smoothed position
and animation fields that `update_from_keyboard` / `update_AI` mutate.
Key bindings and textures are external collaborators and are omitted. -/
structure Player where
  r : Rect
  speed : ℝ
  active : Bool
  isAI : Bool
  kickRange : ℝ
  team : Team
  visX : ℝ
  visY : ℝ
  smooth : ℝ
  animTime : ℝ
  moveX : ℝ
  moveY : ℝ

/-- `Player::update_from_keyboard` (main.cpp lines 186-208).  The keyboard
snapshot is abstracted to the four booleans `keystate[up/down/left/right]`.
Note the source stores the normalised components back into `int`s with
`dx = (int)std::round(dx/len)`. -/
noncomputable def Player.update_from_keyboard
    (p : Player) (keyUp keyDown keyLeft keyRight : Bool) (dt : ℝ) : Player :=
  if p.active = false ∨ p.isAI = true then p else
  let dy0 : ℤ := (if keyUp then -1 else 0) + (if keyDown then 1 else 0)
  let dx0 : ℤ := (if keyLeft then -1 else 0) + (if keyRight then 1 else 0)
  let len : ℝ := Real.sqrt ((dx0 * dx0 + dy0 * dy0 : ℤ) : ℝ)
  let dx : ℤ := if 0.01 < len then cround ((dx0 : ℝ) / len) else dx0
  let dy : ℤ := if 0.01 < len then cround ((dy0 : ℝ) / len) else dy0
  let rx1 : ℤ := p.r.x + cround ((dx : ℝ) * p.speed * dt)
  let ry1 : ℤ := p.r.y + cround ((dy : ℝ) * p.speed * dt)
  let rx : ℤ := ⌊clampf (rx1 : ℝ) 0 ((SCREEN_W - p.r.w : ℤ) : ℝ)⌋
  let ry : ℤ := ⌊clampf (ry1 : ℝ) 0 ((SCREEN_H - p.r.h : ℤ) : ℝ)⌋
  let animTime := if dx ≠ 0 ∨ dy ≠ 0 then p.animTime + dt else 0
  let visX := p.visX + ((rx : ℝ) - p.visX) * clampf (p.smooth * dt) 0 1
  let visY := p.visY + ((ry : ℝ) - p.visY) * clampf (p.smooth * dt) 0 1
  { p with r := { x := rx, y := ry, w := p.r.w, h := p.r.h },
           moveX := (dx : ℝ), moveY := (dy : ℝ),
           animTime := animTime, visX := visX, visY := visY }

/-- `Player::update_AI` (main.cpp lines 210-225): one-dimensional vertical
pursuit of the ball center at `0.8` of full speed outside a dead zone of 6
pixels.  `b.size/2` and `r.h/2` use C integer division. -/
noncomputable def Player.update_AI (p : Player) (b : Ball) (dt : ℝ) : Player :=
  if p.isAI = false then p else
  let targetY : ℝ := b.y + ((b.size / 2 : ℤ) : ℝ) - ((p.r.h / 2 : ℤ) : ℝ)
  let dy := targetY - (p.r.y : ℝ)
  let moving := 6 < |dy|
  let dir : ℝ := if 0 < dy then 1 else -1
  let ry1 : ℤ := if moving then p.r.y + cround (dir * p.speed * dt * 0.8) else p.r.y
  let moveY : ℝ := if moving then dir else 0
  let ry : ℤ := ⌊clampf (ry1 : ℝ) 0 ((SCREEN_H - p.r.h : ℤ) : ℝ)⌋
  let animTime := if (0 : ℝ) ≠ 0 ∨ moveY ≠ 0 then p.animTime + dt else 0
  let visX := p.visX + ((p.r.x : ℝ) - p.visX) * clampf (p.smooth * dt) 0 1
  let visY := p.visY + ((ry : ℝ) - p.visY) * clampf (p.smooth * dt) 0 1
  { p with r := { x := p.r.x, y := ry, w := p.r.w, h := p.r.h },
           moveX := 0, moveY := moveY,
           animTime := animTime, visX := visX, visY := visY }

/-- `Player::canKickBall` (main.cpp lines 227-234): squared center distance
within squared kick range. -/
noncomputable def Player.canKickBall (p : Player) (ball : Ball) : Prop :=
  let cx := (p.r.x : ℝ) + (p.r.w : ℝ) / 2
  let cy := (p.r.y : ℝ) + (p.r.h : ℝ) / 2
  let bx := ball.x + (ball.size : ℝ) / 2
  let by2 := ball.y + (ball.size : ℝ) / 2
  (cx - bx) * (cx - bx) + (cy - by2) * (cy - by2) ≤ p.kickRange * p.kickRange

noncomputable instance (p : Player) (b : Ball) : Decidable (p.canKickBall b) := by
  unfold Player.canKickBall; infer_instance

/-- `Player::kickBall` (main.cpp lines 236-242): kick from the player's box
center with fixed force `450` when in range, otherwise no-op. -/
noncomputable def Player.kickBall (p : Player) (ball : Ball) : Ball :=
  if p.canKickBall ball then
    ball.kick ((p.r.x : ℝ) + (p.r.w : ℝ) / 2) ((p.r.y : ℝ) + (p.r.h : ℝ) / 2) 450
  else ball

/-- `ScoreBoard` (main.cpp lines 421-424). -/
structure ScoreBoard where
  left : ℤ
  right : ℤ

/-- `reflect_ball_off_player` (main.cpp lines 434-458): invert `vx`, rebuild
the velocity from the vertical hit offset (deflection up to ±75°) at the
pre-collision speed, and apply the fixed `1.05` post-bounce boost. -/
noncomputable def reflect_ball_off_player (ball : Ball) (p : Rect) : Ball :=
  let by2 := ball.y + (ball.size : ℝ) / 2
  let relativeY := (by2 - (p.y : ℝ)) / (p.h : ℝ)
  let hitPos := (relativeY - 0.5) * 2
  let vx1 := -ball.vx
  let speed := Real.sqrt (vx1 * vx1 + ball.vy * ball.vy)
  let angle := hitPos * (75 * Real.pi / 180)
  let dir : ℝ := if 0 < vx1 then 1 else -1
  let vx2 := Real.cos angle * speed * (if 0 < dir then (1 : ℝ) else -1)
  let vy2 := Real.sin angle * speed
  { ball with vx := vx2 * 1.05, vy := vy2 * 1.05 }

/-- Top/bottom boundary reflection of `Game::update` (main.cpp lines
699-701): clamp and invert `vy` at either horizontal wall. -/
noncomputable def boundaryStepY (b : Ball) : Ball :=
  let b1 := if b.y ≤ 0 then { b with y := 0, vy := -b.vy } else b
  if (SCREEN_H : ℝ) ≤ b1.y + (b1.size : ℝ)
  then { b1 with y := ((SCREEN_H : ℝ) - (b1.size : ℝ)), vy := -b1.vy } else b1

/-- Left/right boundary reflection of `Game::update` (main.cpp lines
703-711): clamp and invert `vx` at either vertical wall. -/
noncomputable def boundaryStepX (b : Ball) : Ball :=
  let b1 := if b.x ≤ 0 then { b with x := 0, vx := -b.vx } else b
  if (SCREEN_W : ℝ) ≤ b1.x + (b1.size : ℝ)
  then { b1 with x := ((SCREEN_W : ℝ) - (b1.size : ℝ)), vx := -b1.vx } else b1

/-- The full boundary-collision pass of `Game::update` (main.cpp lines
699-711), in source order: top/bottom first, then left/right. -/
noncomputable def boundaryStep (b : Ball) : Ball := boundaryStepX (boundaryStepY b)

/-- Center-to-center distance between ball and a player rectangle, as
computed in the player-collision branch of `Game::update` (main.cpp lines
717-724). -/
noncomputable def ballPlayerCenterDist (b : Ball) (p : Rect) : ℝ :=
  Real.sqrt ((b.x + (b.size : ℝ) / 2 - ((p.x : ℝ) + (p.w : ℝ) / 2)) *
               (b.x + (b.size : ℝ) / 2 - ((p.x : ℝ) + (p.w : ℝ) / 2)) +
             (b.y + (b.size : ℝ) / 2 - ((p.y : ℝ) + (p.h : ℝ) / 2)) *
               (b.y + (b.size : ℝ) / 2 - ((p.y : ℝ) + (p.h : ℝ) / 2)))

/-- The ball-vs-one-player collision resolution of `Game::update` (main.cpp
lines 713-741): on bounding-box overlap, push the ball to `minDist` from the
player's center when the center distance exceeds the `0.1` guard, then
reflect.  `minDist = (ball.size + max(p.w, p.h))/2.0f + 2.0f`. -/
noncomputable def resolve_player_collision (ball : Ball) (p : Rect) : Ball :=
  if rect_intersect ball.rect p then
    let ballCenterX := ball.x + (ball.size : ℝ) / 2
    let ballCenterY := ball.y + (ball.size : ℝ) / 2
    let playerCenterX := (p.x : ℝ) + (p.w : ℝ) / 2
    let playerCenterY := (p.y : ℝ) + (p.h : ℝ) / 2
    let dx := ballCenterX - playerCenterX
    let dy := ballCenterY - playerCenterY
    let distance := Real.sqrt (dx * dx + dy * dy)
    let pushed :=
      if 0.1 < distance then
        let dxn := dx / distance
        let dyn := dy / distance
        let minDist := ((ball.size + max p.w p.h : ℤ) : ℝ) / 2 + 2
        { ball with x := playerCenterX + dxn * minDist - (ball.size : ℝ) / 2,
                    y := playerCenterY + dyn * minDist - (ball.size : ℝ) / 2 }
      else ball
    reflect_ball_off_player pushed p
  else ball

/-- `int goalHeight = SCREEN_H * 0.15 * scale` with `scale = 0.8f`
(main.cpp lines 744-746): the C truncating `int` cast of the positive
product is a floor. -/
noncomputable def goalHeight : ℤ := ⌊(SCREEN_H : ℝ) * 0.15 * 0.8⌋

/-- `int goalY = goalCenterY - goalHeight / 2` with
`goalCenterY = SCREEN_H / 2` (main.cpp lines 748-749), C integer division. -/
noncomputable def goalY : ℤ := SCREEN_H / 2 - goalHeight / 2

/-- The goal-mouth vertical band test of `Game::update` (main.cpp lines 753
and 761): `ball.y + ball.size >= goalY && ball.y <= goalY + goalHeight`. -/
noncomputable def inGoalBand (b : Ball) : Prop :=
  ((goalY : ℤ) : ℝ) ≤ b.y + (b.size : ℝ) ∧ b.y ≤ ((goalY + goalHeight : ℤ) : ℝ)

noncomputable instance (b : Ball) : Decidable (inGoalBand b) := by
  unfold inGoalBand; infer_instance

/-- The goal-detection pass of `Game::update` (main.cpp lines 751-765):
left-goal check (`ball.x <= 80` and band test) increments the right score
and resets rightward; then the right-goal check
(`ball.x + ball.size >= SCREEN_W - 80` and band test, on the possibly
already-reset ball) increments the left score and resets leftward.
`rv` models the `rand()` sample consumed by `Ball::reset`. -/
noncomputable def goalStep (b : Ball) (s : ScoreBoard) (rv : ℕ) : Ball × ScoreBoard :=
  let afterL :=
    if b.x ≤ 80 ∧ inGoalBand b
    then (Ball.reset b false rv, { s with right := s.right + 1 })
    else (b, s)
  let b1 := afterL.1
  let s1 := afterL.2
  if ((SCREEN_W : ℤ) : ℝ) - 80 ≤ b1.x + (b1.size : ℝ) ∧ inGoalBand b1
  then (Ball.reset b1 true rv, { s1 with left := s1.left + 1 })
  else (b1, s1)

/-- `Game::activate_only(int idx)` (main.cpp lines 658-660):
`players[i].active = (int)i == idx` for every roster slot. -/
noncomputable def activate_only (ps : Fin 6 → Player) (idx : ℤ) : Fin 6 → Player :=
  fun i => { ps i with active := decide ((i.val : ℤ) = idx) }

/-- `Game::cycle_left_team` (main.cpp lines 661-673): find the first active
Blue slot (0..2), deactivate it, and activate the next slot modulo 3. -/
noncomputable def cycle_left_team (ps : Fin 6 → Player) : Fin 6 → Player :=
  let cur : ℤ :=
    if (ps 0).active = true then 0
    else if (ps 1).active = true then 1
    else if (ps 2).active = true then 2
    else -1
  let cleared : Fin 6 → Player := fun i =>
    if (i.val : ℤ) = cur then { ps i with active := false } else ps i
  let next : ℤ := (cur + 1) % 3
  fun i => if (i.val : ℤ) = next then { cleared i with active := true } else cleared i

/-- `Game::cycle_right_team` (main.cpp lines 675-687): find the first active
Red slot (3..5), deactivate it, and activate the next: `((cur-3+1)%3)+3`. -/
noncomputable def cycle_right_team (ps : Fin 6 → Player) : Fin 6 → Player :=
  let cur : ℤ :=
    if (ps 3).active = true then 3
    else if (ps 4).active = true then 4
    else if (ps 5).active = true then 5
    else -1
  let cleared : Fin 6 → Player := fun i =>
    if (i.val : ℤ) = cur then { ps i with active := false } else ps i
  let next : ℤ := (cur - 3 + 1) % 3 + 3
  fun i => if (i.val : ℤ) = next then { cleared i with active := true } else cleared i

/-- A player as constructed in `Game::init` (main.cpp lines 533-580): box
width/height `21 × 31`, default speed `260`, kick range `50`, smoothing `12`,
smoothed position initialised to the box position. -/
noncomputable def mkPlayer (x y : ℤ) (act ai : Bool) (t : Team) : Player :=
  { r := { x := x, y := y, w := 21, h := 31 },
    speed := 260, active := act, isAI := ai, kickRange := 50, team := t,
    visX := (x : ℝ), visY := (y : ℝ), smooth := 12, animTime := 0,
    moveX := 0, moveY := 0 }

/-- The initial roster of `Game::init` (main.cpp lines 527-580): three Blue
players (slot 0 active) and three Red players (slot 3 active, `aiEnabled`
is `false` at construction). -/
noncomputable def initPlayers : Fin 6 → Player := fun i =>
  match i with
  | 0 => mkPlayer 60 280 true false Team.Blue
  | 1 => mkPlayer 60 380 false false Team.Blue
  | 2 => mkPlayer 60 480 false false Team.Blue
  | 3 => mkPlayer 829 171 true false Team.Red
  | 4 => mkPlayer 829 581 false false Team.Red
  | 5 => mkPlayer 1159 370 false false Team.Red

/-- The roster-control commands dispatched from `Game::handle_input`
(main.cpp lines 636-651): activate a slot by index (keys 1-6), or cycle the
active player of either team. -/
inductive RosterOp where
  | activate (idx : Fin 6)
  | cycleLeft
  | cycleRight

/-- Apply one roster-control command. -/
noncomputable def applyOp (op : RosterOp) (ps : Fin 6 → Player) : Fin 6 → Player :=
  match op with
  | RosterOp.activate idx => activate_only ps (idx.val : ℤ)
  | RosterOp.cycleLeft => cycle_left_team ps
  | RosterOp.cycleRight => cycle_right_team ps

/-- Apply a sequence of roster-control commands in order. -/
noncomputable def applyOps (ops : List RosterOp) (ps : Fin 6 → Player) : Fin 6 → Player :=
  ops.foldl (fun s op => applyOp op s) ps

/-- At most one active player on each team: no two Blue slots (0..2) are
simultaneously active, and no two Red slots (3..5) are. -/
def teamInv (ps : Fin 6 → Player) : Prop :=
  (¬((ps 0).active = true ∧ (ps 1).active = true)) ∧
  (¬((ps 0).active = true ∧ (ps 2).active = true)) ∧
  (¬((ps 1).active = true ∧ (ps 2).active = true)) ∧
  (¬((ps 3).active = true ∧ (ps 4).active = true)) ∧
  (¬((ps 3).active = true ∧ (ps 5).active = true)) ∧
  (¬((ps 4).active = true ∧ (ps 5).active = true))

/-- One step of the kick-dispatch loop of `Game::handle_input` (main.cpp
lines 620-624): `if (p.active && !p.isAI && keystate[p.kick]) p.kickBall(ball)`.
`keyHeld` abstracts `keystate[p.kick]`. -/
noncomputable def kickDispatch (p : Player) (keyHeld : Bool) (b : Ball) : Ball :=
  if (p.active && !p.isAI && keyHeld) = true then p.kickBall b else b

/-- The whole kick-dispatch loop of `Game::handle_input` over the roster,
threading the ball through each player's dispatch step in order.  `keys p`
abstracts `keystate[p.kick]`. -/
noncomputable def handleKicks (ps : List Player) (keys : Player → Bool) (b : Ball) : Ball :=
  ps.foldl (fun acc p => kickDispatch p (keys p) acc) b

/-- Concrete ball (game ball size 20) that has crossed the left extreme
while vertically inside the goal band. -/
noncomputable def cexBall : Ball :=
  { x := -5, y := 390, vx := -100, vy := 0, size := 20, angle := 0, spinSpeed := 0 }

/-- Concrete ball that has crossed the left extreme. -/
noncomputable def wLeftBall : Ball :=
  { x := -2, y := 100, vx := -7, vy := 3, size := 20, angle := 0, spinSpeed := 0 }

/-- Concrete ball whose leading edge has crossed the right extreme. -/
noncomputable def wRightBall : Ball :=
  { x := 1290, y := 100, vx := 50, vy := 0, size := 20, angle := 0, spinSpeed := 0 }

/-- Concrete ball at the left extreme inside the goal band. -/
noncomputable def goalBall : Ball :=
  { x := 0, y := 390, vx := -50, vy := 0, size := 20, angle := 0, spinSpeed := 0 }

/-- Concrete moving ball at field center. -/
noncomputable def fricBall : Ball :=
  { x := 650, y := 400, vx := 280, vy := 0, size := 20, angle := 0, spinSpeed := 0 }

/-- Concrete ball for kick scenarios. -/
noncomputable def kBall : Ball :=
  { x := 100, y := 100, vx := 5, vy := 7, size := 20, angle := 0, spinSpeed := 0 }

/-- Concrete ball whose center coincides exactly with the center of the
player box `cp6` (dead-center overlap). -/
noncomputable def cb6 : Ball :=
  { x := 100.5, y := 105.5, vx := 40, vy := 10, size := 20, angle := 0, spinSpeed := 0 }

/-- Concrete ball overlapping the player box `cp6` off-center. -/
noncomputable def wb6 : Ball :=
  { x := 120, y := 105.5, vx := -50, vy := 0, size := 20, angle := 0, spinSpeed := 0 }

/-- Concrete player box with the game's body dimensions `21 × 31`. -/
def cp6 : Rect := { x := 100, y := 100, w := 21, h := 31 }

/-- Concrete ball that has crossed the left extreme, with both velocity
components nonzero. -/
noncomputable def b7 : Ball :=
  { x := -3, y := 400, vx := -120, vy := 30, size := 20, angle := 0, spinSpeed := 0 }

/-- Concrete ball that has crossed both the top and the left extreme. -/
noncomputable def tlBall : Ball :=
  { x := -3, y := -5, vx := -120, vy := -40, size := 20, angle := 0, spinSpeed := 0 }

/-- Concrete ball whose leading edges have crossed both the bottom and the
right extreme. -/
noncomputable def brBall : Ball :=
  { x := 1290, y := 790, vx := 50, vy := 60, size := 20, angle := 0, spinSpeed := 0 }

/-- Concrete player box away from the ball. -/
def r7 : Rect := { x := 700, y := 300, w := 21, h := 31 }

/-- A concrete active, human-controlled player in mid-field. -/
noncomputable def diagPlayer : Player := mkPlayer 600 400 true false Team.Blue

/-! ## General helper lemmas -/

lemma cround_eval (x : ℝ) (n : ℤ) (h1 : 0 ≤ x) (h2 : (n : ℝ) ≤ x + 1/2)
    (h3 : x + 1/2 < (n : ℝ) + 1) : cround x = n := by
  unfold cround
  rw [if_pos h1, Int.floor_eq_iff]
  exact ⟨h2, by push_cast; linarith⟩

lemma cround_intCast (n : ℤ) : cround (n : ℝ) = n := by
  unfold cround
  by_cases h : (0 : ℝ) ≤ (n : ℝ)
  · rw [if_pos h, Int.floor_eq_iff]
    constructor
    · push_cast; linarith
    · push_cast; linarith
  · rw [if_neg h]
    have hf : ⌊-(n : ℝ) + 1/2⌋ = -n := by
      rw [Int.floor_eq_iff]
      constructor
      · push_cast; linarith
      · push_cast; linarith
    rw [hf]; ring

lemma sqrt_two_lb : (1.414 : ℝ) ≤ Real.sqrt 2 := by
  rw [show (1.414 : ℝ) = Real.sqrt (1.414 ^ 2) from (Real.sqrt_sq (by norm_num)).symm]
  exact Real.sqrt_le_sqrt (by norm_num)

lemma sqrt_two_ub : Real.sqrt 2 ≤ 1.4143 := by
  rw [show (1.4143 : ℝ) = Real.sqrt (1.4143 ^ 2) from (Real.sqrt_sq (by norm_num)).symm]
  exact Real.sqrt_le_sqrt (by norm_num)

lemma sqrt_two_pos : (0 : ℝ) < Real.sqrt 2 := by
  have := sqrt_two_lb; linarith

lemma cround_inv_sqrt_two : cround (Real.sqrt 2)⁻¹ = 1 := by
  have h0 := sqrt_two_pos
  have hub := sqrt_two_ub
  have hlb := sqrt_two_lb
  have h1 : (1 : ℝ) / 2 ≤ (Real.sqrt 2)⁻¹ := by
    rw [show (Real.sqrt 2)⁻¹ = 1 / Real.sqrt 2 from (one_div _).symm]
    rw [div_le_div_iff (by norm_num) h0]
    nlinarith
  have h2 : (Real.sqrt 2)⁻¹ ≤ 1 := by
    rw [show (Real.sqrt 2)⁻¹ = 1 / Real.sqrt 2 from (one_div _).symm]
    rw [div_le_one h0]; nlinarith
  unfold cround
  rw [if_pos (by positivity), Int.floor_eq_iff]
  constructor
  · push_cast; linarith
  · push_cast; linarith

lemma cround_axial_step : cround (260 * (1 / 10) / Real.sqrt 2) = 18 := by
  have h0 := sqrt_two_pos
  have hub := sqrt_two_ub
  have hlb := sqrt_two_lb
  have h1 : (17.5 : ℝ) ≤ 260 * (1 / 10) / Real.sqrt 2 := by
    rw [le_div_iff h0]
    nlinarith
  have h2 : 260 * (1 / 10) / Real.sqrt 2 < 18.5 := by
    rw [div_lt_iff h0]
    nlinarith
  unfold cround
  rw [if_pos (by positivity), Int.floor_eq_iff]
  constructor
  · push_cast; linarith
  · push_cast; linarith

lemma finval0 : ((0 : Fin 6).val : ℤ) = 0 := rfl

lemma finval1 : ((1 : Fin 6).val : ℤ) = 1 := rfl

lemma finval2 : ((2 : Fin 6).val : ℤ) = 2 := rfl

lemma finval3 : ((3 : Fin 6).val : ℤ) = 3 := rfl

lemma finval4 : ((4 : Fin 6).val : ℤ) = 4 := rfl

lemma finval5 : ((5 : Fin 6).val : ℤ) = 5 := rfl

lemma goalHeight_eq : goalHeight = 96 := by
  unfold goalHeight SCREEN_H
  norm_num

lemma goalY_eq : goalY = 352 := by
  unfold goalY SCREEN_H
  rw [goalHeight_eq]
  decide

/-! ## Boundary-collision helper lemmas -/

lemma boundaryStepY_x (b : Ball) : (boundaryStepY b).x = b.x := by
  simp only [boundaryStepY]; split_ifs <;> rfl

lemma boundaryStepY_vx (b : Ball) : (boundaryStepY b).vx = b.vx := by
  simp only [boundaryStepY]; split_ifs <;> rfl

lemma boundaryStepY_size (b : Ball) : (boundaryStepY b).size = b.size := by
  simp only [boundaryStepY]; split_ifs <;> rfl

lemma boundaryStepX_y (b : Ball) : (boundaryStepX b).y = b.y := by
  simp only [boundaryStepX]; split_ifs <;> rfl

lemma boundaryStepX_vy (b : Ball) : (boundaryStepX b).vy = b.vy := by
  simp only [boundaryStepX]; split_ifs <;> rfl

lemma boundaryStepY_top (b : Ball) (hy : b.y ≤ 0) (hs : b.size < SCREEN_H) :
    (boundaryStepY b).y = 0 ∧ (boundaryStepY b).vy = -b.vy := by
  have hs2 : ((b.size : ℤ) : ℝ) < ((SCREEN_H : ℤ) : ℝ) := by exact_mod_cast hs
  simp only [boundaryStepY]
  rw [if_pos hy]
  rw [if_neg (by simp only; push_neg; linarith)]
  exact ⟨rfl, rfl⟩

lemma boundaryStepY_bottom (b : Ball) (hy : ¬(b.y ≤ 0))
    (hw : (SCREEN_H : ℝ) ≤ b.y + (b.size : ℝ)) :
    (boundaryStepY b).y = (SCREEN_H : ℝ) - (b.size : ℝ) ∧ (boundaryStepY b).vy = -b.vy := by
  simp only [boundaryStepY]
  rw [if_neg hy]
  rw [if_pos hw]
  exact ⟨rfl, rfl⟩

lemma boundaryStep_top (b : Ball) (hy : b.y ≤ 0) (hs : b.size < SCREEN_H) :
    (boundaryStep b).y = 0 ∧ (boundaryStep b).vy = -b.vy := by
  unfold boundaryStep
  rw [boundaryStepX_y, boundaryStepX_vy]
  exact boundaryStepY_top b hy hs

lemma boundaryStep_bottom (b : Ball) (hy : ¬(b.y ≤ 0))
    (hw : (SCREEN_H : ℝ) ≤ b.y + (b.size : ℝ)) :
    (boundaryStep b).y = (SCREEN_H : ℝ) - (b.size : ℝ) ∧ (boundaryStep b).vy = -b.vy := by
  unfold boundaryStep
  rw [boundaryStepX_y, boundaryStepX_vy]
  exact boundaryStepY_bottom b hy hw

lemma boundaryStepX_left (b : Ball) (hx : b.x ≤ 0) (hs : b.size < SCREEN_W) :
    (boundaryStepX b).x = 0 ∧ (boundaryStepX b).vx = -b.vx := by
  have hs2 : ((b.size : ℤ) : ℝ) < ((SCREEN_W : ℤ) : ℝ) := by exact_mod_cast hs
  simp only [boundaryStepX]
  rw [if_pos hx]
  rw [if_neg (by simp only; push_neg; linarith)]
  exact ⟨rfl, rfl⟩

lemma boundaryStepX_right (b : Ball) (hx : ¬(b.x ≤ 0)) (hw : (SCREEN_W : ℝ) ≤ b.x + (b.size : ℝ)) :
    (boundaryStepX b).x = (SCREEN_W : ℝ) - (b.size : ℝ) ∧ (boundaryStepX b).vx = -b.vx := by
  simp only [boundaryStepX]
  rw [if_neg hx]
  rw [if_pos hw]
  exact ⟨rfl, rfl⟩

lemma boundaryStep_left (b : Ball) (hx : b.x ≤ 0) (hs : b.size < SCREEN_W) :
    (boundaryStep b).x = 0 ∧ (boundaryStep b).vx = -b.vx := by
  unfold boundaryStep
  have h1 := boundaryStepX_left (boundaryStepY b) (by rw [boundaryStepY_x]; exact hx)
    (by rw [boundaryStepY_size]; exact hs)
  rw [boundaryStepY_vx] at h1
  exact h1

lemma boundaryStep_right (b : Ball) (hx : ¬(b.x ≤ 0)) (hw : (SCREEN_W : ℝ) ≤ b.x + (b.size : ℝ)) :
    (boundaryStep b).x = (SCREEN_W : ℝ) - (b.size : ℝ) ∧ (boundaryStep b).vx = -b.vx := by
  unfold boundaryStep
  have h1 := boundaryStepX_right (boundaryStepY b) (by rw [boundaryStepY_x]; exact hx)
    (by rw [boundaryStepY_x, boundaryStepY_size]; exact hw)
  rw [boundaryStepY_vx, boundaryStepY_size] at h1
  exact h1

/-! ## Reflection helper lemmas -/

lemma reflect_x (b : Ball) (p : Rect) : (reflect_ball_off_player b p).x = b.x := rfl

lemma reflect_y (b : Ball) (p : Rect) : (reflect_ball_off_player b p).y = b.y := rfl

lemma reflect_size (b : Ball) (p : Rect) : (reflect_ball_off_player b p).size = b.size := rfl

lemma reflect_speed (b : Ball) (p : Rect) :
    ballSpeed (reflect_ball_off_player b p) = 1.05 * ballSpeed b := by
  simp only [reflect_ball_off_player, ballSpeed]
  set θ := ((b.y + (b.size : ℝ) / 2 - (p.y : ℝ)) / (p.h : ℝ) - 0.5) * 2 * (75 * Real.pi / 180)
    with hθ
  set s := Real.sqrt (-b.vx * -b.vx + b.vy * b.vy) with hs
  have hs_eq : s = Real.sqrt (b.vx * b.vx + b.vy * b.vy) := by
    rw [hs]; ring_nf
  have hs_nonneg : 0 ≤ s := by rw [hs]; exact Real.sqrt_nonneg _
  have main : ∀ σ : ℝ, σ = 1 ∨ σ = -1 →
      Real.sqrt (Real.cos θ * s * σ * 1.05 * (Real.cos θ * s * σ * 1.05) +
        Real.sin θ * s * 1.05 * (Real.sin θ * s * 1.05)) =
        1.05 * Real.sqrt (b.vx * b.vx + b.vy * b.vy) := by
    intro σ hσ
    have hkey : Real.cos θ * s * σ * 1.05 * (Real.cos θ * s * σ * 1.05) +
        Real.sin θ * s * 1.05 * (Real.sin θ * s * 1.05) = (1.05 * s) * (1.05 * s) := by
      have hpyth : Real.cos θ ^ 2 + Real.sin θ ^ 2 = 1 := Real.cos_sq_add_sin_sq θ
      rcases hσ with rfl | rfl <;> nlinarith [hpyth]
    rw [hkey, Real.sqrt_mul_self (by positivity), hs_eq]
  split_ifs <;> first
    | exact main 1 (Or.inl rfl)
    | exact main (-1) (Or.inr rfl)

/-! ## Ball-update helper lemmas -/

lemma frictionFactor_pos (dt : ℝ) : 0 < frictionFactor dt := by
  unfold frictionFactor Ball.FRICTION_PER_SEC
  exact Real.rpow_pos_of_pos (by norm_num) _

lemma frictionFactor_lt_one (dt : ℝ) (hdt : 0 < dt) : frictionFactor dt < 1 := by
  unfold frictionFactor Ball.FRICTION_PER_SEC
  exact Real.rpow_lt_one (by norm_num) (by norm_num) (by linarith)

lemma update_vx (b : Ball) (dt : ℝ) :
    (b.update dt).vx =
      if |b.vx * frictionFactor dt| < Ball.MIN_STOP_SPEED then 0
      else b.vx * frictionFactor dt := by
  simp only [Ball.update]

lemma update_vy (b : Ball) (dt : ℝ) :
    (b.update dt).vy =
      if |b.vy * frictionFactor dt| < Ball.MIN_STOP_SPEED then 0
      else b.vy * frictionFactor dt := by
  simp only [Ball.update]

lemma update_speed_lt (b : Ball) (dt : ℝ) (hdt : 0 < dt) (hv : b.vx ≠ 0 ∨ b.vy ≠ 0) :
    ballSpeed (b.update dt) < ballSpeed b := by
  have hf0 := frictionFactor_pos dt
  have hf1 := frictionFactor_lt_one dt hdt
  set f := frictionFactor dt with hf
  have hS : 0 < b.vx * b.vx + b.vy * b.vy := by
    rcases hv with hv | hv
    · have := mul_self_pos.mpr hv
      nlinarith [mul_self_nonneg b.vy]
    · have := mul_self_pos.mpr hv
      nlinarith [mul_self_nonneg b.vx]
  have hvx : (b.update dt).vx * (b.update dt).vx ≤ (b.vx * f) * (b.vx * f) := by
    rw [update_vx]
    split_ifs
    · nlinarith [mul_self_nonneg (b.vx * f)]
    · exact le_refl _
  have hvy : (b.update dt).vy * (b.update dt).vy ≤ (b.vy * f) * (b.vy * f) := by
    rw [update_vy]
    split_ifs
    · nlinarith [mul_self_nonneg (b.vy * f)]
    · exact le_refl _
  have hff : f * f < 1 := by nlinarith
  have hlt : (b.vx * f) * (b.vx * f) + (b.vy * f) * (b.vy * f) < b.vx * b.vx + b.vy * b.vy := by
    nlinarith [hS, hff]
  unfold ballSpeed
  calc Real.sqrt ((b.update dt).vx * (b.update dt).vx + (b.update dt).vy * (b.update dt).vy)
      ≤ Real.sqrt ((b.vx * f) * (b.vx * f) + (b.vy * f) * (b.vy * f)) :=
        Real.sqrt_le_sqrt (by linarith)
    _ < Real.sqrt (b.vx * b.vx + b.vy * b.vy) :=
        Real.sqrt_lt_sqrt (by nlinarith [mul_self_nonneg (b.vx * f), mul_self_nonneg (b.vy * f)])
          hlt

/-! ## Kick helper lemmas -/

lemma kick_noop (b : Ball) (fx fy F : ℝ)
    (h : Real.sqrt ((b.x + (b.size : ℝ) / 2 - fx) * (b.x + (b.size : ℝ) / 2 - fx) +
          (b.y + (b.size : ℝ) / 2 - fy) * (b.y + (b.size : ℝ) / 2 - fy)) ≤ 0.0001) :
    b.kick fx fy F = b := by
  simp only [Ball.kick]
  rw [if_neg (not_lt.mpr h)]

lemma kick_from_left (b : Ball) (F d : ℝ) (hd : 0.0001 < d) :
    (b.kick (b.x + (b.size : ℝ) / 2 - d) (b.y + (b.size : ℝ) / 2) F).vx = b.vx + F ∧
    (b.kick (b.x + (b.size : ℝ) / 2 - d) (b.y + (b.size : ℝ) / 2) F).vy = b.vy := by
  have hd0 : (0 : ℝ) < d := by linarith
  simp only [Ball.kick]
  rw [show b.x + (b.size : ℝ) / 2 - (b.x + (b.size : ℝ) / 2 - d) = d by ring]
  rw [show b.y + (b.size : ℝ) / 2 - (b.y + (b.size : ℝ) / 2) = 0 by ring]
  rw [show d * d + 0 * 0 = d * d by ring]
  rw [Real.sqrt_mul_self hd0.le]
  rw [if_pos hd]
  constructor
  · simp only
    rw [div_self hd0.ne.symm]
    ring
  · simp only
    rw [zero_div]
    ring

/-! ## Collision-resolver helper lemmas -/

lemma resolve_dead_center (b : Ball) (p : Rect)
    (hcx : b.x + (b.size : ℝ) / 2 = (p.x : ℝ) + (p.w : ℝ) / 2)
    (hcy : b.y + (b.size : ℝ) / 2 = (p.y : ℝ) + (p.h : ℝ) / 2) :
    (resolve_player_collision b p).x = b.x ∧ (resolve_player_collision b p).y = b.y := by
  simp only [resolve_player_collision]
  split_ifs with h1 h2
  · exfalso
    rw [hcx, hcy] at h2
    simp only [sub_self, mul_zero, zero_add, Real.sqrt_zero] at h2
    norm_num at h2
  · exact ⟨reflect_x b p, reflect_y b p⟩
  · exact ⟨rfl, rfl⟩

lemma resolve_size (b : Ball) (p : Rect) : (resolve_player_collision b p).size = b.size := by
  simp only [resolve_player_collision]
  split_ifs <;> rfl

lemma resolve_separation (b : Ball) (p : Rect)
    (hov : rect_intersect b.rect p)
    (hdist : 0.1 < ballPlayerCenterDist b p)
    (hnn : 0 ≤ b.size + max p.w p.h) :
    ballPlayerCenterDist (resolve_player_collision b p) p =
      ((b.size + max p.w p.h : ℤ) : ℝ) / 2 + 2 := by
  have hd0 : (0 : ℝ) < ballPlayerCenterDist b p := by linarith
  set dx := b.x + (b.size : ℝ) / 2 - ((p.x : ℝ) + (p.w : ℝ) / 2) with hdx
  set dy := b.y + (b.size : ℝ) / 2 - ((p.y : ℝ) + (p.h : ℝ) / 2) with hdy
  have hDdef : ballPlayerCenterDist b p = Real.sqrt (dx * dx + dy * dy) := rfl
  set D := Real.sqrt (dx * dx + dy * dy) with hD
  have hDpos : (0 : ℝ) < D := by rw [← hDdef]; exact hd0
  have hDsq : D * D = dx * dx + dy * dy :=
    Real.mul_self_sqrt (by nlinarith [mul_self_nonneg dx, mul_self_nonneg dy])
  have hmnn : (0 : ℝ) ≤ ((b.size + max p.w p.h : ℤ) : ℝ) / 2 + 2 := by
    have : (0 : ℝ) ≤ ((b.size + max p.w p.h : ℤ) : ℝ) := by exact_mod_cast hnn
    linarith
  simp only [resolve_player_collision]
  rw [if_pos hov]
  rw [if_pos (by rw [← hdx, ← hdy, ← hD]; rw [hDdef] at hdist; exact hdist)]
  set m := ((b.size + max p.w p.h : ℤ) : ℝ) / 2 + 2 with hm
  unfold ballPlayerCenterDist
  rw [reflect_x, reflect_y, reflect_size]
  simp only
  have ex : (p.x : ℝ) + (p.w : ℝ) / 2 + dx / D * m - (b.size : ℝ) / 2 + (b.size : ℝ) / 2 -
      ((p.x : ℝ) + (p.w : ℝ) / 2) = dx / D * m := by ring
  have ey : (p.y : ℝ) + (p.h : ℝ) / 2 + dy / D * m - (b.size : ℝ) / 2 + (b.size : ℝ) / 2 -
      ((p.y : ℝ) + (p.h : ℝ) / 2) = dy / D * m := by ring
  rw [ex, ey]
  have hval : dx / D * m * (dx / D * m) + dy / D * m * (dy / D * m) = m * m := by
    field_simp
    nlinarith [hDsq]
  rw [hval, Real.sqrt_mul_self hmnn]

/-! ## Goal-detection helper lemmas -/

lemma goalStep_left (b : Ball) (s : ScoreBoard) (rv : ℕ) (hsize : b.size = 20)
    (hx : b.x ≤ 0) (hband : inGoalBand b) :
    goalStep b s rv =
      ({ x := 640, y := 390, vx := 280, vy := 80 * (((rv % 100 : ℕ) : ℝ) / 100 - 0.5),
         size := 20, angle := 0, spinSpeed := 0 },
       { left := s.left, right := s.right + 1 }) := by
  have hdiv : (SCREEN_W / 2 - 20 / 2 : ℤ) = 640 := by decide
  have hdivY : (SCREEN_H / 2 - 20 / 2 : ℤ) = 390 := by decide
  simp only [goalStep]
  split_ifs with h1 h2 h3
  · exfalso
    rcases h2 with ⟨h2, -⟩
    simp only [Ball.reset, hsize, hdiv] at h2
    norm_num [SCREEN_W] at h2
  · simp only [Ball.reset, hsize, hdiv, hdivY]
    norm_num
  · exact absurd ⟨by linarith, hband⟩ h1
  · exact absurd ⟨by linarith, hband⟩ h1

lemma goalStep_right (b : Ball) (s : ScoreBoard) (rv : ℕ) (hsize : b.size = 20)
    (hx : (SCREEN_W : ℝ) ≤ b.x + (b.size : ℝ)) (hband : inGoalBand b) :
    goalStep b s rv =
      ({ x := 640, y := 390, vx := -280, vy := 80 * (((rv % 100 : ℕ) : ℝ) / 100 - 0.5),
         size := 20, angle := 0, spinSpeed := 0 },
       { left := s.left + 1, right := s.right }) := by
  have hdiv : (SCREEN_W / 2 - 20 / 2 : ℤ) = 640 := by decide
  have hdivY : (SCREEN_H / 2 - 20 / 2 : ℤ) = 390 := by decide
  have hWr : ((SCREEN_W : ℤ) : ℝ) = 1300 := by norm_num [SCREEN_W]
  have hxlb : (1280 : ℝ) ≤ b.x := by
    rw [hsize] at hx
    rw [hWr] at hx
    push_cast at hx
    linarith
  simp only [goalStep]
  split_ifs with h1 h2 h3
  · exfalso
    rcases h1 with ⟨h1, -⟩
    linarith
  · exfalso
    rcases h1 with ⟨h1, -⟩
    linarith
  · simp only [Ball.reset, hsize, hdiv, hdivY]
    norm_num
  · exfalso
    exact h3 ⟨by rw [hWr]; rw [hsize]; push_cast; linarith, hband⟩

lemma goalStep_noband (b : Ball) (s : ScoreBoard) (rv : ℕ) (hband : ¬inGoalBand b) :
    goalStep b s rv = (b, s) := by
  simp only [goalStep]
  split_ifs with h1 h2 h3
  · exact absurd h1.2 hband
  · exact absurd h1.2 hband
  · exact absurd h3.2 hband
  · rfl

/-! ## Roster helper lemmas -/

lemma teamInv_init : teamInv initPlayers := by
  unfold teamInv initPlayers mkPlayer
  norm_num

lemma activate_active (ps : Fin 6 → Player) (idx : ℤ) (i : Fin 6) :
    (activate_only ps idx i).active = decide ((i.val : ℤ) = idx) := rfl

lemma teamInv_activate (ps : Fin 6 → Player) (idx : ℤ) : teamInv (activate_only ps idx) := by
  unfold teamInv
  refine ⟨?_, ?_, ?_, ?_, ?_, ?_⟩ <;>
  · rintro ⟨h1, h2⟩
    rw [activate_active] at h1 h2
    simp only [decide_eq_true_eq] at h1 h2
    omega

lemma cl_active (ps : Fin 6 → Player) (i : Fin 6) :
    (cycle_left_team ps i).active =
      (if (i.val : ℤ) =
          ((if (ps 0).active = true then 0
            else if (ps 1).active = true then 1
            else if (ps 2).active = true then 2 else -1) + 1) % 3
       then true
       else if (i.val : ℤ) =
          (if (ps 0).active = true then 0
            else if (ps 1).active = true then 1
            else if (ps 2).active = true then 2 else -1)
       then false else (ps i).active) := by
  simp only [cycle_left_team]
  split_ifs <;> rfl

lemma cr_active (ps : Fin 6 → Player) (i : Fin 6) :
    (cycle_right_team ps i).active =
      (if (i.val : ℤ) =
          ((if (ps 3).active = true then 3
            else if (ps 4).active = true then 4
            else if (ps 5).active = true then 5 else -1) - 3 + 1) % 3 + 3
       then true
       else if (i.val : ℤ) =
          (if (ps 3).active = true then 3
            else if (ps 4).active = true then 4
            else if (ps 5).active = true then 5 else -1)
       then false else (ps i).active) := by
  simp only [cycle_right_team]
  split_ifs <;> rfl

lemma teamInv_cycle_left (ps : Fin 6 → Player) (h : teamInv ps) :
    teamInv (cycle_left_team ps) := by
  obtain ⟨h01, h02, h12, h34, h35, h45⟩ := h
  by_cases h0 : (ps 0).active = true
  · have h1 : (ps 1).active = false := by
      by_contra hc; exact h01 ⟨h0, by simpa using hc⟩
    have h2 : (ps 2).active = false := by
      by_contra hc; exact h02 ⟨h0, by simpa using hc⟩
    refine ⟨?_, ?_, ?_, ?_, ?_, ?_⟩ <;>
      simp [cl_active, h0, h1, h2, h34, h35, h45,
        finval0, finval1, finval2, finval3, finval4, finval5]
  · have h0f : (ps 0).active = false := by
      by_contra hc; exact h0 (by simpa using hc)
    by_cases h1 : (ps 1).active = true
    · have h2 : (ps 2).active = false := by
        by_contra hc; exact h12 ⟨h1, by simpa using hc⟩
      refine ⟨?_, ?_, ?_, ?_, ?_, ?_⟩ <;>
        simp [cl_active, h0f, h1, h2, h34, h35, h45,
          finval0, finval1, finval2, finval3, finval4, finval5]
    · have h1f : (ps 1).active = false := by
        by_contra hc; exact h1 (by simpa using hc)
      by_cases h2 : (ps 2).active = true
      · refine ⟨?_, ?_, ?_, ?_, ?_, ?_⟩ <;>
          simp [cl_active, h0f, h1f, h2, h34, h35, h45,
            finval0, finval1, finval2, finval3, finval4, finval5]
      · have h2f : (ps 2).active = false := by
          by_contra hc; exact h2 (by simpa using hc)
        refine ⟨?_, ?_, ?_, ?_, ?_, ?_⟩ <;>
          simp [cl_active, h0f, h1f, h2f, h34, h35, h45,
            finval0, finval1, finval2, finval3, finval4, finval5]

lemma teamInv_cycle_right (ps : Fin 6 → Player) (h : teamInv ps) :
    teamInv (cycle_right_team ps) := by
  obtain ⟨h01, h02, h12, h34, h35, h45⟩ := h
  by_cases h3 : (ps 3).active = true
  · have h4 : (ps 4).active = false := by
      by_contra hc; exact h34 ⟨h3, by simpa using hc⟩
    have h5 : (ps 5).active = false := by
      by_contra hc; exact h35 ⟨h3, by simpa using hc⟩
    refine ⟨?_, ?_, ?_, ?_, ?_, ?_⟩ <;>
      simp [cr_active, h3, h4, h5, h01, h02, h12,
        finval0, finval1, finval2, finval3, finval4, finval5]
  · have h3f : (ps 3).active = false := by
      by_contra hc; exact h3 (by simpa using hc)
    by_cases h4 : (ps 4).active = true
    · have h5 : (ps 5).active = false := by
        by_contra hc; exact h45 ⟨h4, by simpa using hc⟩
      refine ⟨?_, ?_, ?_, ?_, ?_, ?_⟩ <;>
        simp [cr_active, h3f, h4, h5, h01, h02, h12,
          finval0, finval1, finval2, finval3, finval4, finval5]
    · have h4f : (ps 4).active = false := by
        by_contra hc; exact h4 (by simpa using hc)
      by_cases h5 : (ps 5).active = true
      · refine ⟨?_, ?_, ?_, ?_, ?_, ?_⟩ <;>
          simp [cr_active, h3f, h4f, h5, h01, h02, h12,
            finval0, finval1, finval2, finval3, finval4, finval5]
      · have h5f : (ps 5).active = false := by
          by_contra hc; exact h5 (by simpa using hc)
        refine ⟨?_, ?_, ?_, ?_, ?_, ?_⟩ <;>
          simp [cr_active, h3f, h4f, h5f, h01, h02, h12,
            finval0, finval1, finval2, finval3, finval4, finval5]

lemma applyOps_cons (op : RosterOp) (ops : List RosterOp) (ps : Fin 6 → Player) :
    applyOps (op :: ops) ps = applyOps ops (applyOp op ps) := rfl

lemma teamInv_applyOps (ops : List RosterOp) (ps : Fin 6 → Player) (h : teamInv ps) :
    teamInv (applyOps ops ps) := by
  induction ops generalizing ps with
  | nil => exact h
  | cons op rest ih =>
    rw [applyOps_cons]
    apply ih
    cases op with
    | activate idx => exact teamInv_activate ps (idx.val : ℤ)
    | cycleLeft => exact teamInv_cycle_left ps h
    | cycleRight => exact teamInv_cycle_right ps h

/-! ## Kick-dispatch helper lemmas -/

lemma handleKicks_cons (p : Player) (rest : List Player) (keys : Player → Bool) (b : Ball) :
    handleKicks (p :: rest) keys b = handleKicks rest keys (kickDispatch p (keys p) b) := rfl

lemma kickDispatch_ai (p : Player) (k : Bool) (b : Ball) (hAI : p.isAI = true) :
    kickDispatch p k b = b := by
  unfold kickDispatch
  rw [if_neg (by simp [hAI])]

/-! ## Claim theorems -/

/-- C1 (counterexample): a ball that has crossed the left extreme while
vertically inside the goal-mouth band IS wall-bounced by the boundary pass
of `Game::update` (position clamped to 0 and x-velocity inverted from -100
to 100), contradicting the claim that in-band crossings are not
wall-bounced. -/
theorem C1_inband_crossing_is_bounced :
    cexBall.x ≤ 0 ∧ inGoalBand cexBall ∧ cexBall.vx = -100 ∧
    (boundaryStep cexBall).x = 0 ∧ (boundaryStep cexBall).vx = 100 := by
  have hb := boundaryStep_left cexBall (by norm_num [cexBall]) (by norm_num [cexBall, SCREEN_W])
  refine ⟨by norm_num [cexBall], ?_, by norm_num [cexBall], hb.1, ?_⟩
  · unfold inGoalBand cexBall
    rw [goalY_eq, goalHeight_eq]
    norm_num
  · rw [hb.2]
    norm_num [cexBall]

/-- C1 (amended): left/right boundary reflection in `Game::update` is
unconditional: whenever the ball has crossed the left extreme (`x ≤ 0`) it
is clamped to 0 and its x-velocity inverted, and whenever its leading edge
has crossed the right extreme it is clamped to `SCREEN_W - size` and its
x-velocity inverted — in both cases regardless of whether the ball is
vertically inside the goal band (the conclusion holds for every `y`).  The
goal rule is evaluated only afterwards. -/
theorem C1_wall_bounce_unconditional (b : Ball) :
    (b.x ≤ 0 → b.size < SCREEN_W →
      (boundaryStep b).x = 0 ∧ (boundaryStep b).vx = -b.vx) ∧
    (0 < b.x → (SCREEN_W : ℝ) ≤ b.x + (b.size : ℝ) →
      (boundaryStep b).x = (SCREEN_W : ℝ) - (b.size : ℝ) ∧ (boundaryStep b).vx = -b.vx) :=
  ⟨fun hx hs => boundaryStep_left b hx hs,
   fun hx hw => boundaryStep_right b (not_le.mpr hx) hw⟩

/-- C1 (witness): the amended theorem applied at concrete balls crossing
the left and right extremes. -/
theorem C1_wall_bounce_witness :
    ((boundaryStep wLeftBall).x = 0 ∧ (boundaryStep wLeftBall).vx = -wLeftBall.vx) ∧
    ((boundaryStep wRightBall).x = (SCREEN_W : ℝ) - (wRightBall.size : ℝ) ∧
      (boundaryStep wRightBall).vx = -wRightBall.vx) :=
  ⟨(C1_wall_bounce_unconditional wLeftBall).1 (by norm_num [wLeftBall])
      (by norm_num [wLeftBall, SCREEN_W]),
   (C1_wall_bounce_unconditional wRightBall).2 (by norm_num [wRightBall])
      (by norm_num [wRightBall, SCREEN_W])⟩

/-- C2: for the game ball (size 20), a tick in which the ball sits at a
horizontal extreme inside the goal band increments exactly the opposing
score counter by 1 and repositions the ball to the field center
(top-left 640, 390, so the ball center is the field center 650, 400) with
horizontal velocity of fixed magnitude 280 directed away from the goal
that was scored in, plus the small random vertical component
`80*((rv%100)/100 - 0.5)`; a ball outside the band leaves the ball and both
score counters entirely unchanged. -/
theorem C2_goal_scoring (b : Ball) (s : ScoreBoard) (rv : ℕ) (hsize : b.size = 20) :
    (b.x ≤ 0 → inGoalBand b →
      goalStep b s rv =
        ({ x := 640, y := 390, vx := 280, vy := 80 * (((rv % 100 : ℕ) : ℝ) / 100 - 0.5),
           size := 20, angle := 0, spinSpeed := 0 },
         { left := s.left, right := s.right + 1 })) ∧
    ((SCREEN_W : ℝ) ≤ b.x + (b.size : ℝ) → inGoalBand b →
      goalStep b s rv =
        ({ x := 640, y := 390, vx := -280, vy := 80 * (((rv % 100 : ℕ) : ℝ) / 100 - 0.5),
           size := 20, angle := 0, spinSpeed := 0 },
         { left := s.left + 1, right := s.right })) ∧
    (¬inGoalBand b → goalStep b s rv = (b, s)) :=
  ⟨fun hx hband => goalStep_left b s rv hsize hx hband,
   fun hx hband => goalStep_right b s rv hsize hx hband,
   fun hband => goalStep_noband b s rv hband⟩

/-- C2 (witness): scoring applied at a concrete in-band ball at the left
extreme with score (3,4) and random sample 7. -/
theorem C2_goal_scoring_witness :
    goalStep goalBall { left := 3, right := 4 } 7 =
      ({ x := 640, y := 390, vx := 280, vy := 80 * (((7 % 100 : ℕ) : ℝ) / 100 - 0.5),
         size := 20, angle := 0, spinSpeed := 0 },
       { left := 3, right := 4 + 1 }) :=
  (C2_goal_scoring goalBall { left := 3, right := 4 } 7 (by norm_num [goalBall])).1
    (by norm_num [goalBall])
    (by unfold inGoalBand goalBall; rw [goalY_eq, goalHeight_eq]; norm_num)

/-- C3 (code bug): with an active human player and a diagonal intent
(down+right) at dt = 0.1 s, `update_from_keyboard` moves the box by
(+26, +26) — the full axial step `round(speed*dt) = 26` on BOTH axes — so
diagonal speed is √2 times axial speed.  The intended normalisation is
nullified because `(int)std::round(dx/len)` rounds `1/√2` back to `1`;
a true unit direction would have given the per-axis step
`round(speed*dt/√2) = 18`. -/
theorem C3_diagonal_not_normalized :
    diagPlayer.r.x = 600 ∧ diagPlayer.r.y = 400 ∧
    (diagPlayer.update_from_keyboard false true false true (1 / 10)).r.x = 626 ∧
    (diagPlayer.update_from_keyboard false true false true (1 / 10)).r.y = 426 ∧
    cround (Real.sqrt 2)⁻¹ = 1 ∧
    cround (260 * (1 / 10) / Real.sqrt 2) = 18 := by
  have hupd : (diagPlayer.update_from_keyboard false true false true (1 / 10)).r.x = 626 ∧
      (diagPlayer.update_from_keyboard false true false true (1 / 10)).r.y = 426 := by
    simp only [Player.update_from_keyboard, diagPlayer, mkPlayer]
    rw [if_neg (by simp)]
    norm_num
    rw [if_pos (show (1 : ℝ) / 100 < Real.sqrt 2 by linarith [sqrt_two_lb])]
    rw [cround_inv_sqrt_two]
    norm_num
    rw [cround_eval 26 26 (by norm_num) (by norm_num) (by norm_num)]
    norm_num [clampf, SCREEN_W, SCREEN_H]
  exact ⟨by norm_num [diagPlayer, mkPlayer], by norm_num [diagPlayer, mkPlayer],
    hupd.1, hupd.2, cround_inv_sqrt_two, cround_axial_step⟩

/-- C4: for every `dt > 0`, one `Ball::update` step strictly decreases the
ball's translational speed whenever it is nonzero (so repeated steps
strictly decrease it while nonzero), and a velocity component whose
post-friction magnitude falls below `MIN_STOP_SPEED` is set to exactly 0. -/
theorem C4_friction_strictly_decreases (b : Ball) (dt : ℝ) (hdt : 0 < dt) :
    ((b.vx ≠ 0 ∨ b.vy ≠ 0) → ballSpeed (b.update dt) < ballSpeed b) ∧
    (|b.vx * frictionFactor dt| < Ball.MIN_STOP_SPEED → (b.update dt).vx = 0) ∧
    (|b.vy * frictionFactor dt| < Ball.MIN_STOP_SPEED → (b.update dt).vy = 0) := by
  refine ⟨fun hv => update_speed_lt b dt hdt hv, fun h => ?_, fun h => ?_⟩
  · rw [update_vx, if_pos h]
  · rw [update_vy, if_pos h]

/-- C4 (witness): the friction theorem applied to a concrete moving ball at
`dt = 1/60`. -/
theorem C4_friction_witness :
    (0 : ℝ) < 1 / 60 ∧ fricBall.vx ≠ 0 ∧
    ballSpeed (fricBall.update (1 / 60)) < ballSpeed fricBall :=
  ⟨by norm_num, by norm_num [fricBall],
   (C4_friction_strictly_decreases fricBall (1 / 60) (by norm_num)).1
     (Or.inl (by norm_num [fricBall]))⟩

/-- C5: `Ball::kick` leaves the entire ball state unchanged when the kick
origin is within the `0.0001` epsilon of the ball center, and a kick with
force `F` from an origin directly left of the ball center (at any distance
`d` above the epsilon) increases `vx` by exactly `F` and leaves `vy`
unchanged. -/
theorem C5_kick_properties (b : Ball) (F d fx fy : ℝ) :
    (Real.sqrt ((b.x + (b.size : ℝ) / 2 - fx) * (b.x + (b.size : ℝ) / 2 - fx) +
        (b.y + (b.size : ℝ) / 2 - fy) * (b.y + (b.size : ℝ) / 2 - fy)) ≤ 0.0001 →
      b.kick fx fy F = b) ∧
    (0.0001 < d →
      (b.kick (b.x + (b.size : ℝ) / 2 - d) (b.y + (b.size : ℝ) / 2) F).vx = b.vx + F ∧
      (b.kick (b.x + (b.size : ℝ) / 2 - d) (b.y + (b.size : ℝ) / 2) F).vy = b.vy) :=
  ⟨fun h => kick_noop b fx fy F h, fun hd => kick_from_left b F d hd⟩

/-- C5 (witness): a zero-distance kick is a no-op on a concrete ball, and a
kick of force 50 from 30 px directly left adds exactly 50 to `vx`. -/
theorem C5_kick_witness :
    kBall.kick (kBall.x + (kBall.size : ℝ) / 2) (kBall.y + (kBall.size : ℝ) / 2) 50 = kBall ∧
    (kBall.kick (kBall.x + (kBall.size : ℝ) / 2 - 30) (kBall.y + (kBall.size : ℝ) / 2) 50).vx =
      kBall.vx + 50 := by
  constructor
  · exact (C5_kick_properties kBall 50 30 (kBall.x + (kBall.size : ℝ) / 2)
      (kBall.y + (kBall.size : ℝ) / 2)).1 (by simp [Real.sqrt_zero]; norm_num)
  · exact ((C5_kick_properties kBall 50 30 0 0).2 (by norm_num)).1

/-- C6 (counterexample): with the actor box fully overlapping the ball at
dead-center (coincident centers), the resolver does NOT reposition the ball
to `minSeparation = (20 + max 21 31)/2 + 2 = 27.5` from the actor center:
the `distance > 0.1` guard fails, the push is skipped, the position is
unchanged and the resulting center distance is 0, not 27.5. -/
theorem C6_dead_center_not_separated :
    rect_intersect cb6.rect cp6 ∧
    ballPlayerCenterDist cb6 cp6 = 0 ∧
    (resolve_player_collision cb6 cp6).x = cb6.x ∧
    (resolve_player_collision cb6 cp6).y = cb6.y ∧
    ballPlayerCenterDist (resolve_player_collision cb6 cp6) cp6 ≠
      ((cb6.size + max cp6.w cp6.h : ℤ) : ℝ) / 2 + 2 := by
  have hrect : cb6.rect = { x := 101, y := 106, w := 20, h := 20 } := by
    unfold Ball.rect cb6
    simp only
    rw [show cround (100.5 : ℝ) = 101 from cround_eval _ _ (by norm_num) (by norm_num) (by norm_num)]
    rw [show cround (105.5 : ℝ) = 106 from cround_eval _ _ (by norm_num) (by norm_num) (by norm_num)]
  have hcd : ballPlayerCenterDist cb6 cp6 = 0 := by
    unfold ballPlayerCenterDist cb6 cp6
    norm_num [Real.sqrt_zero]
  have hpos := resolve_dead_center cb6 cp6 (by norm_num [cb6, cp6]) (by norm_num [cb6, cp6])
  have hsame : ballPlayerCenterDist (resolve_player_collision cb6 cp6) cp6 =
      ballPlayerCenterDist cb6 cp6 := by
    unfold ballPlayerCenterDist
    rw [hpos.1, hpos.2, resolve_size]
  refine ⟨by rw [hrect]; decide, hcd, hpos.1, hpos.2, ?_⟩
  rw [hsame, hcd]
  norm_num [cb6, cp6]

/-- C6 (amended): when the overlap test succeeds and the center distance
exceeds the `0.1` guard, the resolver repositions the ball so its center
lies exactly `minSeparation = (ball.size + max(p.w, p.h))/2 + 2` from the
actor's center along the unit separation vector; at dead-center overlap
(coincident centers) the guard fails, the reposition is skipped entirely,
and the ball's position is unchanged (only the velocity reflection runs). -/
theorem C6_separation_distance (b : Ball) (p : Rect) :
    (b.x + (b.size : ℝ) / 2 = (p.x : ℝ) + (p.w : ℝ) / 2 →
      b.y + (b.size : ℝ) / 2 = (p.y : ℝ) + (p.h : ℝ) / 2 →
      (resolve_player_collision b p).x = b.x ∧ (resolve_player_collision b p).y = b.y) ∧
    (rect_intersect b.rect p → 0.1 < ballPlayerCenterDist b p → 0 ≤ b.size + max p.w p.h →
      ballPlayerCenterDist (resolve_player_collision b p) p =
        ((b.size + max p.w p.h : ℤ) : ℝ) / 2 + 2) :=
  ⟨fun hcx hcy => resolve_dead_center b p hcx hcy,
   fun hov hd hnn => resolve_separation b p hov hd hnn⟩

/-- C6 (witness): the amended theorem applied at a dead-center overlap
(position unchanged) and at a concrete off-center overlap, where the ball
ends up exactly 27.5 px from the actor center. -/
theorem C6_separation_witness :
    (resolve_player_collision cb6 cp6).x = cb6.x ∧
    ballPlayerCenterDist (resolve_player_collision wb6 cp6) cp6 =
      ((wb6.size + max cp6.w cp6.h : ℤ) : ℝ) / 2 + 2 := by
  have hrect : wb6.rect = { x := 120, y := 106, w := 20, h := 20 } := by
    unfold Ball.rect wb6
    simp only
    rw [show cround (120 : ℝ) = 120 from cround_eval _ _ (by norm_num) (by norm_num) (by norm_num)]
    rw [show cround (105.5 : ℝ) = 106 from cround_eval _ _ (by norm_num) (by norm_num) (by norm_num)]
  have hdist : ballPlayerCenterDist wb6 cp6 = 19.5 := by
    unfold ballPlayerCenterDist wb6 cp6
    norm_num
    rw [show (1521 : ℝ) = 39 * 39 by norm_num, show (4 : ℝ) = 2 * 2 by norm_num]
    rw [Real.sqrt_mul_self (by norm_num), Real.sqrt_mul_self (by norm_num)]
  constructor
  · exact ((C6_separation_distance cb6 cp6).1 (by norm_num [cb6, cp6])
      (by norm_num [cb6, cp6])).1
  · exact (C6_separation_distance wb6 cp6).2 (by rw [hrect]; decide)
      (by rw [hdist]; norm_num) (by norm_num [wb6, cp6])

/-- C7: boundary reflection preserves the speed magnitude on the reflecting
axis exactly at all four walls — a top or bottom crossing merely changes
the sign of the y-velocity (`vy' = -vy`, `|vy'| = |vy|`) and a left or
right crossing merely changes the sign of the x-velocity (`vx' = -vx`,
`|vx'| = |vx|`) — while actor-collision reflection
(`reflect_ball_off_player`) rescales the ball's speed by exactly the fixed
multiplier 1.05 > 1 applied to the pre-collision speed. -/
theorem C7_reflection_speed_contrast (b : Ball) (p : Rect) :
    (b.y ≤ 0 → b.size < SCREEN_H →
      (boundaryStep b).vy = -b.vy ∧ |(boundaryStep b).vy| = |b.vy|) ∧
    (0 < b.y → (SCREEN_H : ℝ) ≤ b.y + (b.size : ℝ) →
      (boundaryStep b).vy = -b.vy ∧ |(boundaryStep b).vy| = |b.vy|) ∧
    (b.x ≤ 0 → b.size < SCREEN_W →
      (boundaryStep b).vx = -b.vx ∧ |(boundaryStep b).vx| = |b.vx|) ∧
    (0 < b.x → (SCREEN_W : ℝ) ≤ b.x + (b.size : ℝ) →
      (boundaryStep b).vx = -b.vx ∧ |(boundaryStep b).vx| = |b.vx|) ∧
    ballSpeed (reflect_ball_off_player b p) = 1.05 * ballSpeed b := by
  refine ⟨fun hy hs => ?_, fun hy hw => ?_, fun hx hs => ?_, fun hx hw => ?_,
    reflect_speed b p⟩
  · have h := boundaryStep_top b hy hs
    exact ⟨h.2, by rw [h.2, abs_neg]⟩
  · have h := boundaryStep_bottom b (not_le.mpr hy) hw
    exact ⟨h.2, by rw [h.2, abs_neg]⟩
  · have h := boundaryStep_left b hx hs
    exact ⟨h.2, by rw [h.2, abs_neg]⟩
  · have h := boundaryStep_right b (not_le.mpr hx) hw
    exact ⟨h.2, by rw [h.2, abs_neg]⟩

/-- C7 (witness): the contrast theorem applied at a concrete ball crossing
the top and left walls, a concrete ball crossing the bottom and right
walls, and a concrete ball and actor box for the 1.05 collision boost. -/
theorem C7_reflection_speed_witness :
    ((boundaryStep tlBall).vy = -tlBall.vy ∧ |(boundaryStep tlBall).vy| = |tlBall.vy|) ∧
    ((boundaryStep tlBall).vx = -tlBall.vx ∧ |(boundaryStep tlBall).vx| = |tlBall.vx|) ∧
    ((boundaryStep brBall).vy = -brBall.vy ∧ |(boundaryStep brBall).vy| = |brBall.vy|) ∧
    ((boundaryStep brBall).vx = -brBall.vx ∧ |(boundaryStep brBall).vx| = |brBall.vx|) ∧
    ballSpeed (reflect_ball_off_player b7 r7) = 1.05 * ballSpeed b7 :=
  ⟨(C7_reflection_speed_contrast tlBall r7).1 (by norm_num [tlBall])
      (by norm_num [tlBall, SCREEN_H]),
   (C7_reflection_speed_contrast tlBall r7).2.2.1 (by norm_num [tlBall])
      (by norm_num [tlBall, SCREEN_W]),
   (C7_reflection_speed_contrast brBall r7).2.1 (by norm_num [brBall])
      (by norm_num [brBall, SCREEN_H]),
   (C7_reflection_speed_contrast brBall r7).2.2.2.1 (by norm_num [brBall])
      (by norm_num [brBall, SCREEN_W]),
   (C7_reflection_speed_contrast b7 r7).2.2.2.2⟩

/-- C8: starting from the initial roster of `Game::init`, after any
sequence of cycle-active and activate-by-index operations each team has at
most one player whose `active` flag is true. -/
theorem C8_at_most_one_active_per_team (ops : List RosterOp) :
    teamInv (applyOps ops initPlayers) :=
  teamInv_applyOps ops initPlayers teamInv_init

/-- C9: AI actors never apply a kick impulse through the per-tick kick
dispatch of `Game::handle_input`: removing every actor with `isAI = true`
from the roster leaves the dispatched ball identical, for every roster,
key snapshot and ball. -/
theorem C9_ai_actors_never_kick (ps : List Player) (keys : Player → Bool) (b : Ball) :
    handleKicks ps keys b = handleKicks (ps.filter fun p => !p.isAI) keys b := by
  induction ps generalizing b with
  | nil => rfl
  | cons p rest ih =>
    by_cases hAI : p.isAI = true
    · have hf : (p :: rest).filter (fun q => !q.isAI) = rest.filter (fun q => !q.isAI) := by
        simp [List.filter, hAI]
      rw [hf, handleKicks_cons, kickDispatch_ai p (keys p) b hAI]
      exact ih b
    · have hb : p.isAI = false := by simpa using hAI
      have hf : (p :: rest).filter (fun q => !q.isAI) =
          p :: rest.filter (fun q => !q.isAI) := by
        simp [List.filter, hb]
      rw [hf, handleKicks_cons, handleKicks_cons]
      exact ih _

/-- C10: for every roster index, `Game::activate_only` sets that player's
`active` flag to true, sets every other player's `active` flag (on both
teams) to false, leaves every other field of every player unchanged, and
afterwards exactly one player is active globally. -/
theorem C10_activate_only_exact (ps : Fin 6 → Player) (idx : Fin 6) :
    (activate_only ps (idx.val : ℤ) idx).active = true ∧
    (∀ j : Fin 6, j ≠ idx → (activate_only ps (idx.val : ℤ) j).active = false) ∧
    (∀ j : Fin 6, (activate_only ps (idx.val : ℤ) j).r = (ps j).r ∧
      (activate_only ps (idx.val : ℤ) j).speed = (ps j).speed ∧
      (activate_only ps (idx.val : ℤ) j).isAI = (ps j).isAI ∧
      (activate_only ps (idx.val : ℤ) j).kickRange = (ps j).kickRange ∧
      (activate_only ps (idx.val : ℤ) j).team = (ps j).team) ∧
    (∃! j : Fin 6, (activate_only ps (idx.val : ℤ) j).active = true) := by
  have hset : ∀ j : Fin 6, (activate_only ps (idx.val : ℤ) j).active =
      decide ((j.val : ℤ) = (idx.val : ℤ)) := fun j => rfl
  have hidx : (activate_only ps (idx.val : ℤ) idx).active = true := by
    rw [hset]; simp
  refine ⟨hidx, fun j hj => ?_, fun j => ⟨rfl, rfl, rfl, rfl, rfl⟩, idx, hidx, fun y hy => ?_⟩
  · rw [hset]
    simp only [decide_eq_false_iff_not]
    intro hc
    exact hj (Fin.val_injective (by exact_mod_cast hc))
  · have hy2 : (activate_only ps (idx.val : ℤ) y).active = true := hy
    rw [hset] at hy2
    simp only [decide_eq_true_eq] at hy2
    exact Fin.val_injective (by exact_mod_cast hy2)

/-- C10 (witness): activating index 2 on the initial roster makes player 2
active and player 0 (the previously active Blue player) inactive. -/
theorem C10_activate_only_witness :
    (activate_only initPlayers ((2 : Fin 6).val : ℤ) 2).active = true ∧
    (activate_only initPlayers ((2 : Fin 6).val : ℤ) 0).active = false :=
  ⟨(C10_activate_only_exact initPlayers 2).1,
   (C10_activate_only_exact initPlayers 2).2.1 0 (by decide)⟩

end TinyFootball
